import Mathlib

/-!
Verification of the pythondualsense controller driver
(`src/avrgui/lib/controller/pythondualsense`): a shallow embedding in Lean 4 of
the event dispatcher, the component state machines, the battery / d-pad
decoding, the checksum helpers and the session lifecycle, together with
theorems settling the specification claims about them.
-/

namespace Pydualsense

/-! ## Event dispatcher (`lib/callback.py`)

A registered callable is modelled by an element of an arbitrary type `β`;
what happens when the dispatcher invokes it is given by a behaviour function
`beh : β → Option PyExn` (`none` = the call returns normally, `some e` = the
call raises the exception `e`).  Python exception classes are collapsed to
the one distinction `Callback.__call__` makes: `TypeError` versus anything
else. -/

/-- Exception raised by a callback: either a `TypeError` (the only class the
dispatch loop catches) or any other exception class, tagged by a code. -/
inductive PyExn where
  | typeError
  | otherExc (code : Nat)
deriving DecidableEq, Repr

/-- State of a `Callback` object: the synchronous list and the coroutine list
(`self._callback_list` and `self._async_callback_list`). -/
structure Callback (β : Type) where
  callback_list : List β
  async_callback_list : List β
deriving DecidableEq, Repr

/-- Embeds `Callback.register`: a coroutine function (as detected by
`iscoroutinefunction` at registration time) is appended to
`_async_callback_list`, any other callable to `_callback_list`. -/
def Callback.register {β : Type} (self : Callback β) (iscoroutine : Bool)
    (callback : β) : Callback β :=
  if iscoroutine then
    { self with async_callback_list := self.async_callback_list ++ [callback] }
  else
    { self with callback_list := self.callback_list ++ [callback] }

/-- The `for callback in self._callback_list` loop of `Callback.__call__`:
each reached callback is invoked; a raised `TypeError` is caught and printed
and the loop continues; any other exception propagates out of the loop at
once.  Returns the list of callbacks actually invoked, in order, together
with the exception that escaped the loop, if any. -/
def callLoop {β : Type} (beh : β → Option PyExn) :
    List β → List β × Option PyExn
  | [] => ([], none)
  | cb :: rest =>
    match beh cb with
    | some (PyExn.otherExc c) => ([cb], some (PyExn.otherExc c))
    | _ =>
      let r := callLoop beh rest
      (cb :: r.1, r.2)

/-- Embeds `Callback.__call__`: only the synchronous `_callback_list` is
iterated; `_async_callback_list` is never touched by the dispatch. -/
def Callback.call {β : Type} (self : Callback β) (beh : β → Option PyExn) :
    List β × Option PyExn :=
  callLoop beh self.callback_list

/-! ## Button (`components/button.py`) -/

/-- Event fired by a `Button`: `on_press` (no payload) or `on_state` with the
new state as payload. -/
inductive ButtonEvent where
  | onPress
  | onState (state : Bool)
deriving DecidableEq, Repr

/-- State of a `Button`: the `_pressed` field, initially `False`. -/
structure Button where
  pressed : Bool
deriving DecidableEq, Repr

/-- Embeds `Button.update`.  Python compares with `state is not self._pressed`;
on the interned booleans `True`/`False` identity coincides with equality, so
this is modelled as `≠`.  Returns the new button state and the events fired,
in firing order (`on_press` before `on_state`). -/
def Button.update (self : Button) (state : Bool) : Button × List ButtonEvent :=
  if state ≠ self.pressed then
    ({ pressed := state },
      (if state then [ButtonEvent.onPress] else []) ++ [ButtonEvent.onState state])
  else
    (self, [])

/-- Runs `Button.update` over a whole input sequence, collecting every event
fired, in order. -/
def Button.runEvents (self : Button) : List Bool → List ButtonEvent
  | [] => []
  | s :: rest =>
    let r := self.update s
    r.2 ++ r.1.runEvents rest

/-- Number of false→true transitions in an input sequence, given the state
held before the sequence starts (the specification-side count). -/
def risingCount : Bool → List Bool → Nat
  | _, [] => 0
  | prev, s :: rest => (if s && !prev then 1 else 0) + risingCount s rest

/-- Number of transitions (in either direction) in an input sequence, given
the state held before the sequence starts (the specification-side count). -/
def transCount : Bool → List Bool → Nat
  | _, [] => 0
  | prev, s :: rest => (if s ≠ prev then 1 else 0) + transCount s rest

/-- Recognizes the `on_press` event. -/
def isOnPress : ButtonEvent → Bool
  | ButtonEvent.onPress => true
  | _ => false

/-- Recognizes the `on_state` event. -/
def isOnState : ButtonEvent → Bool
  | ButtonEvent.onState _ => true
  | _ => false

/-! ## D-pad (`components/dpad.py`)

`DpadDirection` is a Python `IntFlag` whose members are assigned by `auto()`
starting from 1: `NONE = 1`, `UP = 2`, `DOWN = 4`, `LEFT = 8`, `RIGHT = 16`.
A direction value is its underlying integer, flag membership is the
`IntFlag.__contains__` bit test. -/

/-- The `IntFlag` member values of `DpadDirection` (`auto()` starts at 1). -/
def DpadDirection.NONE : Nat := 1

/-- `DpadDirection.UP` member value. -/
def DpadDirection.UP : Nat := 2

/-- `DpadDirection.DOWN` member value. -/
def DpadDirection.DOWN : Nat := 4

/-- `DpadDirection.LEFT` member value. -/
def DpadDirection.LEFT : Nat := 8

/-- `DpadDirection.RIGHT` member value. -/
def DpadDirection.RIGHT : Nat := 16

/-- Flag membership `flag in direction` for an `IntFlag` value: every bit of
the flag is set in the value. -/
def hasFlag (direction flag : Nat) : Bool := direction &&& flag == flag

/-- Embeds `DpadDirection.build_from_value`: the four booleans come from the
literal membership tests in the source, the accumulator starts from
`cls.NONE` (which is the flag of value 1, not 0) and flags are or-ed in. -/
def DpadDirection.build_from_value (value : Nat) : Nat :=
  let up : Bool := value = 7 || value = 0 || value = 1
  let down : Bool := value = 3 || value = 4 || value = 5
  let left : Bool := value = 5 || value = 6 || value = 7
  let right : Bool := value = 1 || value = 2 || value = 3
  let direction := DpadDirection.NONE
  let direction := if up then direction ||| DpadDirection.UP else direction
  let direction := if down then direction ||| DpadDirection.DOWN else direction
  let direction := if left then direction ||| DpadDirection.LEFT else direction
  let direction := if right then direction ||| DpadDirection.RIGHT else direction
  direction

/-- The fixed documented table of the claim, as a pure flag combination:
`0=Up, 1=Up+Right, 2=Right, 3=Right+Down, 4=Down, 5=Down+Left, 6=Left,
7=Left+Up, 8=None`.  Stated from the specification's words for comparison
with `build_from_value`. -/
def dpadSpecTable : Nat → Nat
  | 0 => DpadDirection.UP
  | 1 => DpadDirection.UP ||| DpadDirection.RIGHT
  | 2 => DpadDirection.RIGHT
  | 3 => DpadDirection.RIGHT ||| DpadDirection.DOWN
  | 4 => DpadDirection.DOWN
  | 5 => DpadDirection.DOWN ||| DpadDirection.LEFT
  | 6 => DpadDirection.LEFT
  | 7 => DpadDirection.LEFT ||| DpadDirection.UP
  | _ => DpadDirection.NONE

/-! ## Battery decoding (`const.py` and `dualsense.py`) -/

/-- The `BatteryState` enum of `const.py`. -/
inductive BatteryState where
  | DISCHARGING
  | FULL
  | CHARGING
  | INCORRECT_VOLTAGE
  | TEMPERATURE_ERROR
  | ERROR
  | UNKNOWN
deriving DecidableEq, Repr

/-- The `_BATTERY_STATES` list of `const.py`: sixteen `UNKNOWN` entries, then
indices 0..2 overwritten with discharging/full/charging, `0xa` with
incorrect voltage, `0xb` with temperature error and `0xf` with error. -/
def BATTERY_STATES : List BatteryState :=
  [BatteryState.DISCHARGING, BatteryState.FULL, BatteryState.CHARGING,
   BatteryState.UNKNOWN, BatteryState.UNKNOWN, BatteryState.UNKNOWN,
   BatteryState.UNKNOWN, BatteryState.UNKNOWN, BatteryState.UNKNOWN,
   BatteryState.UNKNOWN, BatteryState.INCORRECT_VOLTAGE,
   BatteryState.TEMPERATURE_ERROR, BatteryState.UNKNOWN, BatteryState.UNKNOWN,
   BatteryState.UNKNOWN, BatteryState.ERROR]

/-- Embeds `BatteryState.find`: index into `_BATTERY_STATES`, with the
`IndexError` on an out-of-range index caught and turned into `UNKNOWN`. -/
def BatteryState.find (num : Nat) : BatteryState :=
  (BATTERY_STATES.get? num).getD BatteryState.UNKNOWN

/-- The battery-percent derivation of `Dualsense._update_inputs` from the
status byte: `min(((status & 0x0f) * 10) + 5, 100)`. -/
def battery_percent_of (status : Nat) : Nat :=
  min ((status &&& 0x0f) * 10 + 5) 100

/-- The battery-state derivation of `Dualsense._update_inputs` from the
status byte: `BatteryState.find((status & 0xf0) >> 4)`. -/
def battery_state_of (status : Nat) : BatteryState :=
  BatteryState.find ((status &&& 0xf0) >>> 4)

/-- The charge-state table as the claim words it: only indices 0, 1, 2, 0xa,
0xb and 0xf are defined, every other index yields the unknown state.  Stated
from the specification's words for comparison with `BatteryState.find`. -/
def batterySpecTable (num : Nat) : BatteryState :=
  if num = 0 then BatteryState.DISCHARGING
  else if num = 1 then BatteryState.FULL
  else if num = 2 then BatteryState.CHARGING
  else if num = 0xa then BatteryState.INCORRECT_VOLTAGE
  else if num = 0xb then BatteryState.TEMPERATURE_ERROR
  else if num = 0xf then BatteryState.ERROR
  else BatteryState.UNKNOWN

/-! ## Checksum helpers (`lib/hid_helpers.py`) -/

/-- Modelled from the spec: `hid_helpers.py` imports `crc32_le` from
`pythondualsense/lib/crc32.py`, a file of this repository that is not present
under `src/`.  The spec describes it only as a CRC32 variant processed over a
seed byte followed by a body buffer; we model the usual little-endian
(reflected, polynomial 0xEDB88320) single-bit round. -/
def crc32_round (c : Nat) : Nat :=
  if c &&& 1 == 1 then (c >>> 1) ^^^ 0xEDB88320 else c >>> 1

/-- Iterates `crc32_round`. -/
def crc32_rounds : Nat → Nat → Nat
  | 0, c => c
  | n + 1, c => crc32_rounds n (crc32_round c)

/-- Modelled from the spec: one byte step of the missing `crc32_le` — fold the
byte into the running crc and run eight single-bit rounds, keeping the value
in 32 bits. -/
def crc32_byte (crc byte : Nat) : Nat :=
  crc32_rounds 8 ((crc ^^^ byte) &&& 0xFFFFFFFF)

/-- Modelled from the spec: the missing `crc32_le(crc, data)` — a
byte-sequential fold of `crc32_byte` over the buffer, starting from `crc`. -/
def crc32_le (crc : Nat) (data : List Nat) : Nat :=
  data.foldl crc32_byte crc

/-- `CRC32_SEED` from `const.py`: the build-path seed byte. -/
def CRC32_SEED : Nat := 0xA2

/-- Embeds `get_checksum`: `crc = crc32_le(0xFFFFFFFF, [seed])`, then
`crc = ~crc32_le(crc, report)` (Python `~x` on an int is `-(x + 1)`), then
`crc % (1 << 32)` converts to an unsigned 32-bit value (Python `%` with a
positive modulus is nonnegative, matching Lean `Int.emod`). -/
def get_checksum (report : List Nat) (seed : Nat) : Nat :=
  let crc := crc32_le 0xFFFFFFFF [seed]
  let crcNot : Int := -((crc32_le crc report : Int) + 1)
  (crcNot % ((1 <<< 32 : Nat) : Int)).toNat

/-- Little-endian byte encoding of `value` on `length` bytes, as Python
`value.to_bytes(length, "little")` produces when `value < 256 ^ length`. -/
def to_bytes_le : Nat → Nat → List Nat
  | 0, _ => []
  | n + 1, value => (value &&& 0xFF) :: to_bytes_le n (value >>> 8)

/-- Embeds `add_checksum`: computes `get_checksum(output_report[:-4],
CRC32_SEED)` and assigns its four little-endian bytes to
`output_report[-4:]`.  Python list slice assignment with a same-length
replacement keeps the prefix, so the result is the first `length - 4`
elements followed by the four checksum bytes. -/
def add_checksum (output_report : List Nat) : List Nat :=
  let body := output_report.take (output_report.length - 4)
  let crc := get_checksum body CRC32_SEED
  body ++ to_bytes_le 4 crc

/-! ## Touchpad LED color setter (`components/touchpad.py`) -/

/-- The LED fields of a `Touchpad`: `_led_r`, `_led_g`, `_led_b` and the
dirty flag `_led_changed`. -/
structure TouchpadLeds where
  led_r : Int
  led_g : Int
  led_b : Int
  led_changed : Bool
deriving DecidableEq, Repr

/-- Embeds the `led_color` property setter.  The incoming tuple is a list of
integers (so wrong lengths and out-of-range channels are expressible).  The
source's middle test `color is not (self._led_r, self._led_g, self._led_b)`
is an identity comparison against a freshly allocated tuple and is therefore
always true, so it imposes no condition.  The assignment happens only when
the length is exactly 3 and every channel lies in 0..255. -/
def Touchpad.led_color_set (self : TouchpadLeds) (color : List Int) : TouchpadLeds :=
  if color.length = 3 then
    let c0 := color.getD 0 0
    let c1 := color.getD 1 0
    let c2 := color.getD 2 0
    if 0 ≤ c0 ∧ c0 ≤ 255 ∧ 0 ≤ c1 ∧ c1 ≤ 255 ∧ 0 ≤ c2 ∧ c2 ≤ 255 then
      { led_r := c0, led_g := c1, led_b := c2, led_changed := true }
    else
      self
  else
    self

/-- A well-formed color in the claim's sense: a 3-tuple whose channels all
lie in 0..255.  Stated from the claim's words. -/
def wellFormedColor (color : List Int) : Prop :=
  color.length = 3 ∧ ∀ c ∈ color, 0 ≤ c ∧ c ≤ 255

instance (color : List Int) : Decidable (wellFormedColor color) := by
  unfold wellFormedColor
  infer_instance

/-! ## Session lifecycle (`dualsense.py`)

The hid device is external I/O; a run of `Dualsense.open` or of the
`Dualsense._update` polling loop is therefore embedded as a function of the
outcomes of the device operations, and its observable result (exceptions,
events fired on `on_state`, whether the handle was closed) is returned
explicitly. -/

/-- The exception classes the setup sequence of `Dualsense.open` can raise
and that its except-clause catches: `IOError` (an alias of `OSError` in
Python 3), `OSError`, `ValueError`. -/
inductive SetupExc where
  | ioError
  | osError
  | valueError
deriving DecidableEq, Repr

/-- Observable result of one call to `Dualsense.open`. -/
structure OpenResult where
  raised : Option SetupExc
  handle_closed : Bool
  session_open : Bool
  returned : Option Bool
deriving DecidableEq, Repr

/-- Embeds the control flow of `Dualsense.open` (named `openSession` because
`open` is a Lean keyword).  The whole body runs under `if not self.is_open:`;
the setup steps (device resolution, feature-report reads, mode detection)
are summarised by their outcome `setup` (`none` = success, `some e` = step
raised `e`).  On a setup exception the except-clause closes the device and
re-raises; on success the device is stored, the update thread starts and
`use_bt` is returned.  When `is_open` is already true the body is skipped
entirely and the function falls through, returning Python `None` and raising
nothing. -/
def Dualsense.openSession (is_open : Bool) (setup : Option SetupExc)
    (use_bt : Bool) : OpenResult :=
  if is_open then
    { raised := none, handle_closed := false, session_open := true, returned := none }
  else
    match setup with
    | some e =>
      { raised := some e, handle_closed := true, session_open := false, returned := none }
    | none =>
      { raised := none, handle_closed := false, session_open := true, returned := some use_bt }

/-- Outcome of the device I/O of one iteration of the `Dualsense._update`
loop: the blocking read raised `OSError`; or the read returned (`len_ok`
tells whether the report had the expected length) and the write raised
`OSError`; or both read and write returned. -/
inductive IterOutcome where
  | readErr
  | writeErr (len_ok : Bool)
  | ok (len_ok : Bool)
deriving DecidableEq, Repr

/-- Whether the iteration's blocking read completed without raising. -/
def readCompleted : IterOutcome → Bool
  | IterOutcome.readErr => false
  | _ => true

/-- Whether the iteration was successful in the claim's sense: its read
returned a report of the expected length, which was then decoded. -/
def lenMatched : IterOutcome → Bool
  | IterOutcome.readErr => false
  | IterOutcome.writeErr b => b
  | IterOutcome.ok b => b

/-- The `while self._update_thread_running` loop of `Dualsense._update` over
a trace of iteration outcomes (an exhausted trace is the stop flag being
observed).  Per iteration, following the source order: the read (an
`OSError` exits to the except-clause); decode on length match, else a log
line; then `if not self._last_state: self.on_state(True); self._last_state =
True` — regardless of whether the length matched; then report generation and
the write (an `OSError` exits).  Returns the `on_state` payloads fired
inside the loop, in order, and the final `_last_state`. -/
def updateLoop (last_state : Bool) : List IterOutcome → List Bool × Bool
  | [] => ([], last_state)
  | iter :: rest =>
    match iter with
    | IterOutcome.readErr => ([], last_state)
    | IterOutcome.writeErr _ =>
      if last_state then ([], last_state) else ([true], true)
    | IterOutcome.ok _ =>
      if last_state then updateLoop last_state rest
      else
        let r := updateLoop true rest
        (true :: r.1, r.2)

/-- Observable result of one run of `Dualsense._update`: the `on_state`
payloads fired, whether `self._device.close()` ran, and the final
`_last_state`. -/
structure UpdateRun where
  events : List Bool
  device_closed : Bool
  last_state : Bool
deriving DecidableEq, Repr

/-- Embeds `Dualsense._update`: the try-block loop (the except-clause
catches the `OSError` and prints it), then the finally-block:
`self._device.close()`, and then `if not self._last_state:
self.on_state(False); self._last_state = False` — the `on_state(False)`
firing is guarded by `_last_state` being false. -/
def Dualsense.update (last_state : Bool) (trace : List IterOutcome) : UpdateRun :=
  let r := updateLoop last_state trace
  { events := if r.2 then r.1 else r.1 ++ [false]
    device_closed := true
    last_state := if r.2 then r.2 else false }

/-! ## Helper lemmas -/

/-- The dispatch loop on a list whose callbacks only ever return normally or
raise `TypeError` invokes every callback and lets nothing escape. -/
theorem callLoop_typeerror_isolated {β : Type} (beh : β → Option PyExn)
    (l : List β) (h : ∀ cb ∈ l, beh cb = none ∨ beh cb = some PyExn.typeError) :
    callLoop beh l = (l, none) := by
  induction l with
  | nil => rfl
  | cons cb rest ih =>
    have hrest : callLoop beh rest = (rest, none) :=
      ih fun x hx => h x (List.mem_cons_of_mem cb hx)
    rcases h cb (List.mem_cons_self cb rest) with hc | hc <;>
      simp [callLoop, hc, hrest]

/-- The first component of `Button.update` is always the button holding the
input just processed. -/
theorem button_update_fst (b : Button) (s : Bool) :
    (b.update s).1 = Button.mk s := by
  cases b with
  | mk p =>
    by_cases h : s = p
    · subst h; simp [Button.update]
    · simp [Button.update, h]

/-- The events fired by one `Button.update` call, as a function of the input
and the previous state. -/
theorem button_update_events (b : Button) (s : Bool) :
    (b.update s).2 = if s = b.pressed then []
      else (if s then [ButtonEvent.onPress] else []) ++ [ButtonEvent.onState s] := by
  cases b with
  | mk p => by_cases h : s = p <;> simp [Button.update, h]

/-- Unfolding `Button.runEvents` one step. -/
theorem runEvents_cons (b : Button) (s : Bool) (rest : List Bool) :
    b.runEvents (s :: rest) = (b.update s).2 ++ (Button.mk s).runEvents rest := by
  rw [Button.runEvents, button_update_fst]

/-- `on_press` count over a run equals the number of false→true transitions
of the input sequence. -/
theorem runEvents_onPress_count (inputs : List Bool) :
    ∀ prev : Bool,
      ((Button.mk prev).runEvents inputs).countP isOnPress = risingCount prev inputs := by
  induction inputs with
  | nil => intro prev; rfl
  | cons s rest ih =>
    intro prev
    rw [runEvents_cons, List.countP_append, ih s, button_update_events]
    by_cases h : s = prev <;> cases s <;>
      simp_all [risingCount, isOnPress, List.countP, List.countP.go]

/-- `on_state` count over a run equals the number of transitions of the
input sequence, in either direction. -/
theorem runEvents_onState_count (inputs : List Bool) :
    ∀ prev : Bool,
      ((Button.mk prev).runEvents inputs).countP isOnState = transCount prev inputs := by
  induction inputs with
  | nil => intro prev; rfl
  | cons s rest ih =>
    intro prev
    rw [runEvents_cons, List.countP_append, ih s, button_update_events]
    by_cases h : s = prev <;> cases s <;>
      simp_all [transCount, isOnState, List.countP, List.countP.go]

/-- Once `_last_state` is true, the loop body never fires `on_state` again
and leaves the flag true. -/
theorem updateLoop_connected (trace : List IterOutcome) :
    updateLoop true trace = ([], true) := by
  induction trace with
  | nil => rfl
  | cons iter rest ih =>
    cases iter with
    | readErr => rfl
    | writeErr b => simp [updateLoop]
    | ok b => simpa [updateLoop] using ih

/-- `to_bytes_le` always yields exactly the requested number of bytes. -/
theorem to_bytes_le_length (n : Nat) : ∀ value : Nat, (to_bytes_le n value).length = n := by
  induction n with
  | zero => intro value; rfl
  | succ k ih => intro value; simp [to_bytes_le, ih]

/-- The unsigned conversion at the end of `get_checksum` lands in 32 bits. -/
theorem get_checksum_lt (report : List Nat) (seed : Nat) :
    get_checksum report seed < 2 ^ 32 := by
  show ((-((crc32_le (crc32_le 0xFFFFFFFF [seed]) report : Int) + 1))
      % ((1 <<< 32 : Nat) : Int)).toNat < 2 ^ 32
  generalize -((crc32_le (crc32_le 0xFFFFFFFF [seed]) report : Int) + 1) = x
  have hM : ((1 <<< 32 : Nat) : Int) = 4294967296 := by norm_num [Nat.shiftLeft_eq]
  rw [hM]
  have h1 : 0 ≤ x % (4294967296 : Int) := Int.emod_nonneg x (by norm_num)
  have h2 : x % (4294967296 : Int) < 4294967296 := Int.emod_lt_of_pos x (by norm_num)
  have hp : (2 : Nat) ^ 32 = 4294967296 := by norm_num
  omega

/-! ## Claim theorems -/

/-- C1 counterexample: a dispatch in which the first registered callback
raises a non-`TypeError` exception.  The exception propagates out of
`Callback.__call__` and the remaining registered callback is never invoked,
refuting the claim that no exception of any kind propagates and that the
remaining callbacks still run. -/
theorem callback_call_counterexample :
    ((Callback.mk [0, 1] ([] : List Nat)).call
        (fun n => if n = 0 then some (PyExn.otherExc 7) else none)).2
      = some (PyExn.otherExc 7)
  ∧ (1 : Nat) ∉ ((Callback.mk [0, 1] ([] : List Nat)).call
        (fun n => if n = 0 then some (PyExn.otherExc 7) else none)).1 := by
  decide

/-- C1 (amended): dispatch isolates exactly `TypeError`.  If every
synchronous registered callback either returns normally or raises a
`TypeError`, then no exception propagates out of `Callback.__call__` and
every synchronous registered callback is invoked, in registration order;
any other exception class propagates and aborts the pass (see the
counterexample). -/
theorem callback_call_isolates_typeerror {β : Type} (self : Callback β)
    (beh : β → Option PyExn)
    (h : ∀ cb ∈ self.callback_list, beh cb = none ∨ beh cb = some PyExn.typeError) :
    (self.call beh).2 = none ∧ (self.call beh).1 = self.callback_list := by
  unfold Callback.call
  rw [callLoop_typeerror_isolated beh self.callback_list h]
  exact ⟨rfl, rfl⟩

/-- C1 witness: the amended theorem applied to a two-callback dispatch in
which both callbacks raise `TypeError`. -/
theorem callback_call_isolates_typeerror_witness :
    ((Callback.mk [0, 1] ([] : List Nat)).call (fun _ => some PyExn.typeError)).2 = none
  ∧ ((Callback.mk [0, 1] ([] : List Nat)).call (fun _ => some PyExn.typeError)).1 = [0, 1] :=
  callback_call_isolates_typeerror (Callback.mk [0, 1] [])
    (fun _ => some PyExn.typeError) (by decide)

/-- C2: the polling loop always closes the device handle on exit, but on the
failing input — a session that connected (the connectivity event fired true)
and then stopped — the finally-block, whose test `if not self._last_state`
is inverted, fires no `on_state(False)` at all: the run ends with events
`[true]`, no false event, and `_last_state` left true. -/
theorem update_closes_but_drops_disconnect_event :
    (∀ (last : Bool) (trace : List IterOutcome),
        (Dualsense.update last trace).device_closed = true)
  ∧ Dualsense.update false [IterOutcome.ok true]
      = { events := [true], device_closed := true, last_state := true } := by
  exact ⟨fun last trace => rfl, by decide⟩

/-- C3: calling `Dualsense.open` while the session is already open raises
nothing — the whole body is guarded by `if not self.is_open:` and the call
silently returns Python `None` — contradicting the docstring
`:raise IOError: If the device is already open`.  The second half of the
claim does hold: a setup failure closes the partially-opened handle, the
exception propagates and the session stays closed. -/
theorem open_silent_when_already_open :
    Dualsense.openSession true none false
      = { raised := none, handle_closed := false, session_open := true, returned := none }
  ∧ ∀ (e : SetupExc) (use_bt : Bool),
      (Dualsense.openSession false (some e) use_bt).raised = some e
    ∧ (Dualsense.openSession false (some e) use_bt).handle_closed = true
    ∧ (Dualsense.openSession false (some e) use_bt).session_open = false :=
  ⟨rfl, fun _ _ => ⟨rfl, rfl, rfl⟩⟩

/-- C4: a coroutine callback registered with `Callback.register` lands in
`_async_callback_list`, but `Callback.__call__` iterates only
`_callback_list`, so firing the event invokes nothing: the registered
deferred callback is dropped, never routed through the stored event loop. -/
theorem callback_async_registered_never_invoked :
    (((Callback.mk ([] : List Nat) []).register true 0).async_callback_list = [0])
  ∧ ∀ (beh : Nat → Option PyExn),
      ((Callback.mk ([] : List Nat) []).register true 0).call beh = ([], none) :=
  ⟨rfl, fun _ => rfl⟩

/-- C5: over any input sequence from the initial not-pressed state,
`on_press` fires exactly once per false→true transition, `on_state` exactly
once per transition in either direction, and an update equal to the current
pressed state fires nothing. -/
theorem button_update_edge_spec : ∀ (inputs : List Bool),
    ((Button.mk false).runEvents inputs).countP isOnPress = risingCount false inputs
  ∧ ((Button.mk false).runEvents inputs).countP isOnState = transCount false inputs
  ∧ ∀ (b : Button), (b.update b.pressed).2 = [] :=
  fun inputs =>
    ⟨runEvents_onPress_count inputs false, runEvents_onState_count inputs false,
      fun b => by simp [Button.update]⟩

/-- C6 counterexample: at d-pad code 0 the derived value is not the
documented combination `Up`: the accumulator of `build_from_value` starts
from `cls.NONE`, which as an `auto()` `IntFlag` member has value 1, so the
`NONE` flag is also set. -/
theorem dpad_direction_counterexample :
    DpadDirection.build_from_value 0 ≠ dpadSpecTable 0
  ∧ hasFlag (DpadDirection.build_from_value 0) DpadDirection.NONE = true := by
  decide

/-- C6 (amended): for every d-pad code 0–8 the derived value is the
documented flag combination with the `NONE` flag (value 1) additionally
or-ed in; in particular the four directional flag memberships match the
fixed table exactly, and code 8 yields exactly `NONE`. -/
theorem dpad_direction_table_with_none (value : Nat) (h : value < 9) :
    DpadDirection.build_from_value value = dpadSpecTable value ||| DpadDirection.NONE
  ∧ hasFlag (DpadDirection.build_from_value value) DpadDirection.UP
      = hasFlag (dpadSpecTable value) DpadDirection.UP
  ∧ hasFlag (DpadDirection.build_from_value value) DpadDirection.DOWN
      = hasFlag (dpadSpecTable value) DpadDirection.DOWN
  ∧ hasFlag (DpadDirection.build_from_value value) DpadDirection.LEFT
      = hasFlag (dpadSpecTable value) DpadDirection.LEFT
  ∧ hasFlag (DpadDirection.build_from_value value) DpadDirection.RIGHT
      = hasFlag (dpadSpecTable value) DpadDirection.RIGHT := by
  revert value
  decide

/-- C6 witness: the amended theorem applied at code 3 (Right+Down). -/
theorem dpad_direction_table_with_none_witness :
    DpadDirection.build_from_value 3 = dpadSpecTable 3 ||| DpadDirection.NONE
  ∧ hasFlag (DpadDirection.build_from_value 3) DpadDirection.UP
      = hasFlag (dpadSpecTable 3) DpadDirection.UP
  ∧ hasFlag (DpadDirection.build_from_value 3) DpadDirection.DOWN
      = hasFlag (dpadSpecTable 3) DpadDirection.DOWN
  ∧ hasFlag (DpadDirection.build_from_value 3) DpadDirection.LEFT
      = hasFlag (dpadSpecTable 3) DpadDirection.LEFT
  ∧ hasFlag (DpadDirection.build_from_value 3) DpadDirection.RIGHT
      = hasFlag (dpadSpecTable 3) DpadDirection.RIGHT :=
  dpad_direction_table_with_none 3 (by decide)

set_option maxRecDepth 8000 in
/-- C7: for every status byte 0–255, the decoded battery percent is
`min(low_nibble * 10 + 5, 100)` and so at most 100, and the decoded charge
state is the fixed 16-entry table of the claim applied to the high nibble
(only 0, 1, 2, 0xa, 0xb, 0xf defined, unknown everywhere else). -/
theorem battery_decode_spec : ∀ (status : Nat), status < 256 →
    battery_percent_of status = min ((status &&& 0x0f) * 10 + 5) 100
  ∧ battery_percent_of status ≤ 100
  ∧ battery_state_of status = batterySpecTable ((status &&& 0xf0) >>> 4) := by
  decide

/-- C7 witness: the theorem applied at status byte 0xab (percent capped at
100, charge state "bad voltage"). -/
theorem battery_decode_spec_witness :
    battery_percent_of 0xab = min ((0xab &&& 0x0f) * 10 + 5) 100
  ∧ battery_percent_of 0xab ≤ 100
  ∧ battery_state_of 0xab = batterySpecTable ((0xab &&& 0xf0) >>> 4) :=
  battery_decode_spec 0xab (by decide)

/-- C8: `get_checksum` returns an unsigned 32-bit value, its two `crc32_le`
passes are one pass over the seed byte followed by the body buffer, and
`add_checksum` leaves the body of the report unchanged and overwrites its
last four bytes with the little-endian encoding of the build-seed checksum
of all preceding bytes. -/
theorem checksum_trailer_spec : ∀ (report : List Nat) (seed : Nat),
    (get_checksum report seed < 2 ^ 32
  ∧ crc32_le (crc32_le 0xFFFFFFFF [seed]) report = crc32_le 0xFFFFFFFF (seed :: report))
  ∧ ∀ (output_report : List Nat), 4 ≤ output_report.length →
      (add_checksum output_report).take (output_report.length - 4)
        = output_report.take (output_report.length - 4)
    ∧ (add_checksum output_report).drop (output_report.length - 4)
        = to_bytes_le 4
            (get_checksum (output_report.take (output_report.length - 4)) CRC32_SEED)
    ∧ (add_checksum output_report).length = output_report.length := by
  intro report seed
  refine ⟨⟨get_checksum_lt report seed, rfl⟩, ?_⟩
  intro l hl
  have hlen : (l.take (l.length - 4)).length = l.length - 4 := by
    simp [List.length_take]
  refine ⟨?_, ?_, ?_⟩
  · have h1 := List.take_left (l.take (l.length - 4))
        (to_bytes_le 4 (get_checksum (l.take (l.length - 4)) CRC32_SEED))
    rw [hlen] at h1
    exact h1
  · have h1 := List.drop_left (l.take (l.length - 4))
        (to_bytes_le 4 (get_checksum (l.take (l.length - 4)) CRC32_SEED))
    rw [hlen] at h1
    exact h1
  · show (l.take (l.length - 4) ++ to_bytes_le 4 _).length = l.length
    rw [List.length_append, hlen, to_bytes_le_length]
    omega

/-- C8 witness: the trailer property of the theorem applied to a concrete
9-byte report. -/
theorem checksum_trailer_spec_witness :
    (add_checksum [0x31, 0x00, 0x10, 1, 2, 0, 0, 0, 0]).drop 5
      = to_bytes_le 4 (get_checksum [0x31, 0x00, 0x10, 1, 2] CRC32_SEED) := by
  have h := ((checksum_trailer_spec [] 0).2
      [0x31, 0x00, 0x10, 1, 2, 0, 0, 0, 0] (by decide)).2.1
  simpa using h

/-- C9 counterexample: a first iteration whose read returns a report of the
wrong length — not a successful iteration in the claim's sense — still
fires the connectivity event with true, because the `if not
self._last_state` block sits outside the length check. -/
theorem connect_event_counterexample :
    (updateLoop false [IterOutcome.ok false]).1 = [true]
  ∧ lenMatched (IterOutcome.ok false) = false := by
  decide

/-- C9 (amended): starting disconnected, the connectivity event fires true
exactly once, on the first loop iteration, if and only if that iteration's
blocking read completed without an OS error — regardless of whether the
report had the expected length — and never fires on an iteration whose read
raised. -/
theorem connect_event_fires_on_first_completed_read (trace : List IterOutcome) :
    (updateLoop false trace).1
      = if (trace.head?.map readCompleted).getD false then [true] else [] := by
  cases trace with
  | nil => rfl
  | cons iter rest =>
    cases iter with
    | readErr => rfl
    | writeErr b => simp [updateLoop, readCompleted]
    | ok b => simp [updateLoop, readCompleted, updateLoop_connected]

/-- C10: feeding the touchpad `led_color` setter anything that is not a
3-tuple of channels each in 0..255 leaves the stored color and the LED
dirty flag unchanged (the setter is total: no error is raised). -/
theorem led_color_malformed_noop (s : TouchpadLeds) (color : List Int)
    (h : ¬ wellFormedColor color) :
    Touchpad.led_color_set s color = s := by
  by_cases hlen : color.length = 3
  · rw [List.length_eq_three] at hlen
    obtain ⟨a, b, c, rfl⟩ := hlen
    have hr : ¬ (0 ≤ a ∧ a ≤ 255 ∧ 0 ≤ b ∧ b ≤ 255 ∧ 0 ≤ c ∧ c ≤ 255) := by
      intro hc
      refine h ⟨rfl, ?_⟩
      intro x hx
      simp only [List.mem_cons, List.not_mem_nil, or_false] at hx
      rcases hx with rfl | rfl | rfl
      · exact ⟨hc.1, hc.2.1⟩
      · exact ⟨hc.2.2.1, hc.2.2.2.1⟩
      · exact ⟨hc.2.2.2.2.1, hc.2.2.2.2.2⟩
    simp [Touchpad.led_color_set, hr]
  · simp [Touchpad.led_color_set, hlen]

/-- C10 witness: the theorem applied to an out-of-range red channel. -/
theorem led_color_malformed_noop_witness :
    Touchpad.led_color_set ⟨0, 0, 0, false⟩ [300, 0, 0] = ⟨0, 0, 0, false⟩ :=
  led_color_malformed_noop ⟨0, 0, 0, false⟩ [300, 0, 0] (by decide)

end Pydualsense
